import Mathlib

/-!
Verification development for the virtual try-on studio app.

The definitions below are a shallow embedding of the application's core:
the data model (`ImageFile`, `BodyScan`, `Profile`, `SavedOutfit`), the
persisted-record migration performed on load, the guided body-scan capture
session (countdown, preview, confirm), the saved-outfit operations, and the
generation pipeline (`handleGenerate`) of the two variants of the app
(the file `index.tsx` and the unnamed first variant, prefixed `p0_` here).

Stateful React components are embedded as explicit state records with pure
transition functions; `Date.now()` and the external image-generation
service's reply are passed in as explicit parameters.  JS truthiness on
optional strings (`undefined` and `""` are both falsy) is modelled by
`jsTruthy` / `jsOr`.
-/

/-- An encoded image payload plus its media type (`{ b64, mimeType }`). -/
structure ImageFile where
  b64 : String
  mimeType : String
deriving DecidableEq, Repr

/-- The three-angle body scan: `{ front, side, back }`, each slot optional. -/
structure BodyScan where
  front : Option ImageFile
  side : Option ImageFile
  back : Option ImageFile
deriving DecidableEq, Repr

/-- A persisted generation result: `{ id, name, image }` (image is a data URL). -/
structure SavedOutfit where
  id : String
  name : String
  image : String
deriving DecidableEq, Repr

/-- The body-type enum of the profile form. -/
inductive BodyType
  | rectangle
  | triangle
  | invertedTriangle
  | hourglass
  | round
deriving DecidableEq, Repr

/-- The string each `BodyType` value renders as in the source. -/
def BodyType.str : BodyType → String
  | .rectangle => "Rectangle"
  | .triangle => "Triangle"
  | .invertedTriangle => "Inverted Triangle"
  | .hourglass => "Hourglass"
  | .round => "Round"

/-- The pose enum of the creator page. -/
inductive Pose
  | standingStraight
  | slightTurn
  | handsOnHips
  | walkingMotion
deriving DecidableEq, Repr

/-- The string each `Pose` value renders as in the source. -/
def Pose.str : Pose → String
  | .standingStraight => "Standing Straight"
  | .slightTurn => "Slight 3/4 Turn"
  | .handsOnHips => "Hands on Hips"
  | .walkingMotion => "Walking Motion"

/-- The `Profile` record of `index.tsx` (no face image in this variant).
Optional string fields model `chest?: string` etc., which may be absent or
empty; both are falsy in the JS conditionals that read them. -/
structure Profile where
  name : String
  bodyScans : BodyScan
  height : String
  weight : String
  bodyType : Option BodyType
  chest : Option String
  waist : Option String
  hips : Option String
  savedOutfits : List SavedOutfit
deriving DecidableEq, Repr

/-- JS `String.prototype.trim`, modelled over the character list so that it
evaluates by kernel reduction: whitespace stripped from both ends. -/
def jsTrim (s : String) : String :=
  String.mk (((s.data.dropWhile Char.isWhitespace).reverse.dropWhile Char.isWhitespace).reverse)

/-- JS truthiness of an optional string: `undefined`, `null` and `""` are falsy. -/
def jsTruthy (o : Option String) : Bool :=
  match o with
  | none => false
  | some s => s ≠ ""

/-- JS `a || d` on an optional string `a`: the string when truthy, else `d`. -/
def jsOr (o : Option String) (d : String) : String :=
  match o with
  | none => d
  | some s => if s = "" then d else s

/-- `isScanComplete` (line 584 of `index.tsx`): the truthy-chain
`bodyScans.front && bodyScans.side && bodyScans.back`, which in boolean
position holds exactly when all three slots are non-null.  The same check
guards `handleSave` on the profile page. -/
def isScanComplete (b : BodyScan) : Bool :=
  b.front.isSome && b.side.isSome && b.back.isSome

/-- The shape of the record persisted under the `userProfile` storage key,
before migration: the current `Profile` fields plus the legacy `photos`
field.  An absent field is `none`. -/
structure StoredRecord where
  name : String
  photos : Option (List ImageFile)
  bodyScans : Option BodyScan
  height : String
  weight : String
  bodyType : Option BodyType
  chest : Option String
  waist : Option String
  hips : Option String
  savedOutfits : Option (List SavedOutfit)
deriving DecidableEq, Repr

/-- The schema migration the load effect of `index.tsx` (lines 431-454)
applies to a parsed record: a present `photos` list is reinterpreted
positionally into `bodyScans` (a missing position, like `photos[1]` on a
one-element list, is `undefined || null`) and the `photos` field deleted;
a still-absent `bodyScans` becomes the empty scan; an absent
`savedOutfits` becomes the empty list. -/
def migrate (r : StoredRecord) : StoredRecord :=
  let r1 :=
    match r.photos with
    | some ps =>
        { r with
          bodyScans := some { front := ps.get? 0, side := ps.get? 1, back := ps.get? 2 }
          photos := none }
    | none => r
  let r2 :=
    match r1.bodyScans with
    | none => { r1 with bodyScans := some { front := none, side := none, back := none } }
    | some _ => r1
  match r2.savedOutfits with
  | none => { r2 with savedOutfits := some [] }
  | some _ => r2

/-- C7: For every `BodyScan` value — hence for all 2³ combinations of
null/non-null in the `front`, `side` and `back` slots — the completeness
predicate `isScanComplete` is true if and only if all three slots are
non-null, and false if any slot is null. -/
theorem isScanComplete_iff_all_slots_nonnull (b : BodyScan) :
    isScanComplete b = true ↔ b.front ≠ none ∧ b.side ≠ none ∧ b.back ≠ none := by
  cases b with
  | mk f s k =>
    cases f <;> cases s <;> cases k <;>
      simp [isScanComplete]

/-- C3: For every persisted record read by load: a legacy record whose
`photos` field holds an ordered list of images is migrated to a body scan
`{front := photos[0], side := photos[1], back := photos[2]}` with missing
positions becoming null and the legacy field removed; a record lacking
`savedOutfits` is given the empty list; migrating an already-current record
(no legacy field, `bodyScans` and `savedOutfits` present) is a no-op; and
migration is idempotent on every record. -/
theorem migrate_spec (r : StoredRecord) :
    (∀ ps, r.photos = some ps →
        (migrate r).bodyScans
          = some { front := ps.get? 0, side := ps.get? 1, back := ps.get? 2 } ∧
        (migrate r).photos = none) ∧
    (r.savedOutfits = none → (migrate r).savedOutfits = some []) ∧
    (r.photos = none → r.bodyScans ≠ none → r.savedOutfits ≠ none → migrate r = r) ∧
    migrate (migrate r) = migrate r := by
  obtain ⟨nm, ph, bs, h, w, bt, ch, wa, hp, so⟩ := r
  refine ⟨?_, ?_, ?_, ?_⟩
  · rintro ps rfl
    cases so <;> simp [migrate]
  · rintro rfl
    cases ph <;> [skip; skip] <;> cases bs <;> simp [migrate]
  · rintro rfl hbs hso
    cases bs with
    | none => exact absurd rfl hbs
    | some b =>
      cases so with
      | none => exact absurd rfl hso
      | some l => simp [migrate]
  · cases ph <;> cases bs <;> cases so <;> simp [migrate]

/-- C3 witness: the migration evaluated on concrete records: a legacy
one-photo record gains `{front := the photo, side := null, back := null}`,
an empty `savedOutfits` field, and loses `photos`; and a current record is
returned unchanged. -/
theorem migrate_spec_witness :
    (migrate
        { name := "Alex", photos := some [{ b64 := "AAA", mimeType := "image/jpeg" }],
          bodyScans := none, height := "5.8", weight := "70", bodyType := none,
          chest := none, waist := none, hips := none, savedOutfits := none }).bodyScans
      = some { front := some { b64 := "AAA", mimeType := "image/jpeg" },
               side := none, back := none } ∧
    (migrate
        { name := "Alex", photos := some [{ b64 := "AAA", mimeType := "image/jpeg" }],
          bodyScans := none, height := "5.8", weight := "70", bodyType := none,
          chest := none, waist := none, hips := none, savedOutfits := none }).savedOutfits
      = some [] ∧
    migrate
        { name := "Alex", photos := none,
          bodyScans := some { front := none, side := none, back := none },
          height := "5.8", weight := "70", bodyType := none,
          chest := none, waist := none, hips := none, savedOutfits := some [] }
      = { name := "Alex", photos := none,
          bodyScans := some { front := none, side := none, back := none },
          height := "5.8", weight := "70", bodyType := none,
          chest := none, waist := none, hips := none, savedOutfits := some [] } := by
  refine ⟨?_, ?_, ?_⟩
  · exact ((migrate_spec _).1 [{ b64 := "AAA", mimeType := "image/jpeg" }] rfl).1
  · exact (migrate_spec _).2.1 rfl
  · exact (migrate_spec _).2.2.1 rfl (by decide) (by decide)

/-- The step of the guided body-scan capture (`BodyScanStep`). -/
inductive BodyScanStep
  | front
  | side
  | back
deriving DecidableEq, Repr

/-- The state of a `BodyScanCapture` session: the current step, the
collected slots, the pending preview still (a data URL), the displayed
countdown value, the live interval's closure counter (`some` while the
interval is scheduled, mirroring `countdownIntervalRef`), the number of
stills drawn from the video so far, the body scans emitted through
`onComplete`, and whether `onClose` has been called. -/
structure CaptureState where
  step : BodyScanStep
  images : BodyScan
  preview : Option String
  countdown : Option Nat
  timerCount : Option Nat
  captured : Nat
  completions : List BodyScan
  closed : Bool
deriving DecidableEq, Repr

/-- `handleCapture` (lines 86-118 of `index.tsx`): a no-op while a countdown
is active (`countdown !== null`); otherwise shows 3 and schedules the
one-second interval with its closure counter at 3. -/
def handleCapture (s : CaptureState) : CaptureState :=
  if s.countdown ≠ none then s
  else { s with countdown := some 3, timerCount := some 3 }

/-- One firing of the countdown interval: decrements the closure counter,
shows it while positive and `null` at zero; at zero it also clears the
interval and draws exactly one still from the video into the preview
(`frame` is the data URL the canvas encodes). -/
def tick (frame : String) (s : CaptureState) : CaptureState :=
  match s.timerCount with
  | none => s
  | some count =>
      let count := count - 1
      let s1 := { s with timerCount := some count
                         countdown := if count > 0 then some count else none }
      if count = 0 then
        { s1 with timerCount := none
                  preview := some frame
                  captured := s1.captured + 1 }
      else s1

/-- `preview.split(',')[1]`: the base64 payload of a data URL. -/
def dataUrlBase64 (u : String) : String :=
  (u.splitOn ",").getD 1 ""

/-- Writing a still into the body-scan slot named by the current step
(the computed property `{ ...images, [step]: still }`). -/
def setSlot (b : BodyScan) (st : BodyScanStep) (img : ImageFile) : BodyScan :=
  match st with
  | .front => { b with front := some img }
  | .side => { b with side := some img }
  | .back => { b with back := some img }

/-- `handleConfirm` (lines 124-139 of `index.tsx`): a no-op without a
pending preview; otherwise stores the still (base64 of the preview data
URL, JPEG) into the current step's slot, clears the preview, and either
advances `front → side → back` or, at `back`, emits the completed scan via
`onComplete` and closes the modal. -/
def handleConfirm (s : CaptureState) : CaptureState :=
  match s.preview with
  | none => s
  | some prev =>
      let still : ImageFile := { b64 := dataUrlBase64 prev, mimeType := "image/jpeg" }
      let newImages := setSlot s.images s.step still
      let s1 := { s with images := newImages, preview := none }
      match s.step with
      | .front => { s1 with step := .side }
      | .side => { s1 with step := .back }
      | .back => { s1 with completions := s1.completions ++ [newImages], closed := true }

/-- C5: starting a capture from an idle session begins a countdown whose
observed values at one-second ticks are 3, 2, 1, null, with exactly one
still drawn at the transition to null (none before it); invoking the
capture action while the countdown is active is a no-op (the state, hence
the timer, is unchanged and no second still appears); and once the interval
has cleared itself a further firing does nothing. -/
theorem capture_countdown_spec (s : CaptureState) (f : String)
    (hc : s.countdown = none) (_ht : s.timerCount = none) :
    (handleCapture s).countdown = some 3 ∧
    handleCapture (handleCapture s) = handleCapture s ∧
    (tick f (handleCapture s)).countdown = some 2 ∧
    (tick f (handleCapture s)).captured = s.captured ∧
    handleCapture (tick f (handleCapture s)) = tick f (handleCapture s) ∧
    (tick f (tick f (handleCapture s))).countdown = some 1 ∧
    (tick f (tick f (handleCapture s))).captured = s.captured ∧
    handleCapture (tick f (tick f (handleCapture s)))
      = tick f (tick f (handleCapture s)) ∧
    (tick f (tick f (tick f (handleCapture s)))).countdown = none ∧
    (tick f (tick f (tick f (handleCapture s)))).captured = s.captured + 1 ∧
    (tick f (tick f (tick f (handleCapture s)))).preview = some f ∧
    tick f (tick f (tick f (tick f (handleCapture s))))
      = tick f (tick f (tick f (handleCapture s))) := by
  simp [handleCapture, tick, hc]

/-- C5 witness: the countdown run from a concrete idle session. -/
theorem capture_countdown_spec_witness :
    (handleCapture
        { step := .front, images := { front := none, side := none, back := none },
          preview := none, countdown := none, timerCount := none, captured := 0,
          completions := [], closed := false }).countdown = some 3 ∧
    (tick "data:image/jpeg;base64,STILL"
        (tick "data:image/jpeg;base64,STILL"
          (tick "data:image/jpeg;base64,STILL"
            (handleCapture
              { step := .front, images := { front := none, side := none, back := none },
                preview := none, countdown := none, timerCount := none, captured := 0,
                completions := [], closed := false })))).captured = 0 + 1 := by
  have h := capture_countdown_spec
    { step := .front, images := { front := none, side := none, back := none },
      preview := none, countdown := none, timerCount := none, captured := 0,
      completions := [], closed := false }
    "data:image/jpeg;base64,STILL" rfl rfl
  exact ⟨h.1, h.2.2.2.2.2.2.2.2.2.1⟩

/-- C6: three confirm actions at steps front, side, back in order, each with
a pending still, produce a `BodyScan` whose three slots hold exactly the
stills confirmed at those steps (all non-null), and the session emits its
completion event exactly once — at the third confirm, none before it — and
closes. -/
theorem confirm_sequence_spec (s : CaptureState) (p1 p2 p3 : String)
    (hstep : s.step = .front) (hdone : s.completions = []) :
    ((handleConfirm { handleConfirm { handleConfirm { s with preview := some p1 }
          with preview := some p2 } with preview := some p3 }).images
        = { front := some { b64 := dataUrlBase64 p1, mimeType := "image/jpeg" }
            side := some { b64 := dataUrlBase64 p2, mimeType := "image/jpeg" }
            back := some { b64 := dataUrlBase64 p3, mimeType := "image/jpeg" } }) ∧
    ((handleConfirm { s with preview := some p1 }).completions = []) ∧
    ((handleConfirm { handleConfirm { s with preview := some p1 }
        with preview := some p2 }).completions = []) ∧
    ((handleConfirm { handleConfirm { handleConfirm { s with preview := some p1 }
          with preview := some p2 } with preview := some p3 }).completions
        = [{ front := some { b64 := dataUrlBase64 p1, mimeType := "image/jpeg" }
             side := some { b64 := dataUrlBase64 p2, mimeType := "image/jpeg" }
             back := some { b64 := dataUrlBase64 p3, mimeType := "image/jpeg" } }]) ∧
    ((handleConfirm { handleConfirm { handleConfirm { s with preview := some p1 }
          with preview := some p2 } with preview := some p3 }).closed = true) := by
  obtain ⟨st, im, pv, cd, tc, cap, comp, cl⟩ := s
  simp only at hstep hdone
  subst hstep hdone
  obtain ⟨fr, sd, bk⟩ := im
  simp [handleConfirm, setSlot]

/-- C6 witness: the three-confirm run from a concrete fresh session. -/
theorem confirm_sequence_spec_witness :
    (handleConfirm { handleConfirm { handleConfirm
        { step := .front, images := { front := none, side := none, back := none },
          preview := some "d:,F", countdown := none, timerCount := none, captured := 3,
          completions := [], closed := false }
        with preview := some "d:,S" } with preview := some "d:,B" }).completions
      = [{ front := some { b64 := dataUrlBase64 "d:,F", mimeType := "image/jpeg" }
           side := some { b64 := dataUrlBase64 "d:,S", mimeType := "image/jpeg" }
           back := some { b64 := dataUrlBase64 "d:,B", mimeType := "image/jpeg" } }] := by
  exact (confirm_sequence_spec
    { step := .front, images := { front := none, side := none, back := none },
      preview := some "d:,F", countdown := none, timerCount := none, captured := 3,
      completions := [], closed := false } "d:,F" "d:,S" "d:,B" rfl rfl).2.2.2.1

/-- The page enum of the top-level controller. -/
inductive Page
  | home
  | creator
  | result
  | loading
  | profile
deriving DecidableEq, Repr

/-- The state of the `App` component of `index.tsx`: the current page, the
in-memory profile, the creator inputs, the transient result and error, the
save-outfit flags, and the persisted record behind the `userProfile`
storage key (`store`). -/
structure AppState where
  page : Page
  profile : Option Profile
  clothingImage : Option ImageFile
  selectedPose : Pose
  resultImage : Option String
  error : Option String
  isSavingOutfit : Bool
  newOutfitName : String
  isOutfitSaved : Bool
  store : Option Profile
deriving DecidableEq, Repr

/-- Appending an outfit to a profile's lookbook, as `handleSaveOutfit`
builds `updatedProfile` (line 573-576 of `index.tsx`):
`savedOutfits := [...savedOutfits, newOutfit]`, every other field spread
through unchanged. -/
def addOutfit (p : Profile) (o : SavedOutfit) : Profile :=
  { p with savedOutfits := p.savedOutfits ++ [o] }

/-- Removing an outfit by id, as `handleDeleteOutfit` (lines 256-260):
`savedOutfits.filter(outfit => outfit.id !== idToDelete)`, every other
field unchanged. -/
def removeOutfit (p : Profile) (idToDelete : String) : Profile :=
  { p with savedOutfits := p.savedOutfits.filter (fun outfit => outfit.id ≠ idToDelete) }

/-- `handleSaveOutfit` (lines 564-582 of `index.tsx`): guarded on a
non-blank outfit name, a result image and a profile; builds the outfit
with a time-derived id, appends it to the profile, persists the updated
profile, marks the result saved and closes the naming form.  `now` stands
for `Date.now()`. -/
def handleSaveOutfit (now : Nat) (s : AppState) : AppState :=
  if jsTrim s.newOutfitName = "" then s
  else
    match s.resultImage, s.profile with
    | some img, some p =>
        let newOutfit : SavedOutfit :=
          { id := "outfit_" ++ toString now, name := s.newOutfitName, image := img }
        let updatedProfile := addOutfit p newOutfit
        { s with profile := some updatedProfile
                 store := some updatedProfile
                 isOutfitSaved := true
                 isSavingOutfit := false }
    | _, _ => s

/-- The enabled state of the "Add to Lookbook" control on the result page:
the button carries `disabled={isOutfitSaved}`. -/
def saveControlEnabled (s : AppState) : Bool :=
  !s.isOutfitSaved

/-- The user pressing "Add to Lookbook": the button is rendered only on the
result page while the naming form is closed, and is disabled once the
outfit is saved; when effective it opens the naming form
(`setIsSavingOutfit(true)`). -/
def clickAddToLookbook (s : AppState) : AppState :=
  if s.page = Page.result ∧ s.isSavingOutfit = false ∧ s.isOutfitSaved = false then
    { s with isSavingOutfit := true }
  else s

/-- The user pressing "Confirm Save" in the naming form: rendered only on
the result page while the form is open, disabled while the name is blank
(`disabled={!newOutfitName.trim()}`); when effective it runs
`handleSaveOutfit`. -/
def clickConfirmSave (now : Nat) (s : AppState) : AppState :=
  if s.page = Page.result ∧ s.isSavingOutfit = true ∧ jsTrim s.newOutfitName ≠ "" then
    handleSaveOutfit now s
  else s

/-- C8: for every profile `p` and outfit `o` whose id does not occur in
`p`'s saved outfits, `removeOutfit (addOutfit p o) o.id` returns a profile
equal to `p` itself — the `savedOutfits` round-trip restores the original
list and no other field is touched.  Both operations are pure Lean
functions on `Profile`, so neither mutates its input. -/
theorem addOutfit_removeOutfit_roundtrip (p : Profile) (o : SavedOutfit)
    (h : ∀ x ∈ p.savedOutfits, x.id ≠ o.id) :
    removeOutfit (addOutfit p o) o.id = p := by
  obtain ⟨nm, bs, hh, ww, bt, ch, wa, hp, so⟩ := p
  simp only [addOutfit, removeOutfit, List.filter_append]
  simp only at h
  congr 1
  have h1 : so.filter (fun outfit => decide (outfit.id ≠ o.id)) = so :=
    List.filter_eq_self.mpr (fun a ha => decide_eq_true (h a ha))
  have h2 : [o].filter (fun outfit => decide (outfit.id ≠ o.id)) = [] := by
    simp [List.filter]
  rw [h1, h2, List.append_nil]

/-- C8 witness: the round trip evaluated on a concrete profile and a fresh
outfit id. -/
theorem addOutfit_removeOutfit_roundtrip_witness :
    removeOutfit
        (addOutfit
          { name := "Alex", bodyScans := { front := none, side := none, back := none },
            height := "5.8", weight := "70", bodyType := none, chest := none,
            waist := none, hips := none,
            savedOutfits := [{ id := "outfit_1", name := "old", image := "img0" }] }
          { id := "outfit_2", name := "new", image := "img1" })
        "outfit_2"
      = { name := "Alex", bodyScans := { front := none, side := none, back := none },
          height := "5.8", weight := "70", bodyType := none, chest := none,
          waist := none, hips := none,
          savedOutfits := [{ id := "outfit_1", name := "old", image := "img0" }] } := by
  exact addOutfit_removeOutfit_roundtrip _ _ (by decide)

/-- C9: on the result page with an unsaved result and a non-blank name,
the save flow (open the naming form, confirm) marks the result saved,
appends exactly one entry to the profile's saved outfits, and disables the
control that triggers save; a second attempt at the save action — pressing
"Add to Lookbook" and "Confirm Save" again for the same result — is a
complete no-op, so no duplicate entry is produced. -/
theorem save_outfit_idempotent (s : AppState) (p : Profile) (img : String)
    (t1 t2 : Nat) (hp : s.profile = some p) (himg : s.resultImage = some img)
    (hpage : s.page = Page.result) (hsaved : s.isOutfitSaved = false)
    (hform : s.isSavingOutfit = false) (hname : jsTrim s.newOutfitName ≠ "") :
    (clickConfirmSave t1 (clickAddToLookbook s)).isOutfitSaved = true ∧
    saveControlEnabled (clickConfirmSave t1 (clickAddToLookbook s)) = false ∧
    (clickConfirmSave t1 (clickAddToLookbook s)).profile
      = some (addOutfit p
          { id := "outfit_" ++ toString t1, name := s.newOutfitName, image := img }) ∧
    clickConfirmSave t2 (clickAddToLookbook (clickConfirmSave t1 (clickAddToLookbook s)))
      = clickConfirmSave t1 (clickAddToLookbook s) := by
  have hname' : ¬ jsTrim s.newOutfitName = "" := hname
  simp [clickAddToLookbook, clickConfirmSave, handleSaveOutfit, saveControlEnabled,
    hp, himg, hpage, hsaved, hform, hname']

/-- C9 witness: the save flow evaluated on a concrete result-page state;
the second save attempt returns the state unchanged. -/
theorem save_outfit_idempotent_witness :
    (clickConfirmSave 7 (clickAddToLookbook
        { page := Page.result,
          profile := some
            { name := "Alex", bodyScans := { front := none, side := none, back := none },
              height := "5.8", weight := "70", bodyType := none, chest := none,
              waist := none, hips := none, savedOutfits := [] },
          clothingImage := none, selectedPose := Pose.standingStraight,
          resultImage := some "data:image/png;base64,R", error := none,
          isSavingOutfit := false, newOutfitName := "Summer Casual",
          isOutfitSaved := false, store := none })).isOutfitSaved = true := by
  exact (save_outfit_idempotent _ _ "data:image/png;base64,R" 7 8 rfl rfl rfl rfl rfl
    (by decide)).1

/-- Inline image data of a request or response part (`{ data, mimeType }`). -/
structure InlineData where
  data : String
  mimeType : String
deriving DecidableEq, Repr

/-- A part of the generation request or response: inline image data and/or
text, either possibly absent. -/
structure GenPart where
  inlineData : Option InlineData
  text : Option String
deriving DecidableEq, Repr

/-- An inline-image request part built from an `ImageFile`. -/
def mkInlinePart (img : ImageFile) : GenPart :=
  { inlineData := some { data := img.b64, mimeType := img.mimeType }, text := none }

/-- A text request part. -/
def mkTextPart (t : String) : GenPart :=
  { inlineData := none, text := some t }

/-- One candidate of the service response, with its ordered list of parts
(`candidate.content.parts`). -/
structure Candidate where
  parts : List GenPart
deriving DecidableEq, Repr

/-- The service response: its candidates and the SDK's aggregated `text`
accessor (the response's accompanying text, absent when none was
returned). -/
structure GenResponse where
  candidates : List Candidate
  text : Option String
deriving DecidableEq, Repr

/-- How the awaited service call resolves: a response, or a thrown error
carrying its (possibly absent or empty) `message`. -/
inductive ServiceOutcome
  | ok (resp : GenResponse)
  | err (msg : Option String)
deriving DecidableEq, Repr

/-- An optional measurement line of the user-provided body profile text:
present only while the field is truthy (present and non-empty). -/
def optLine (o : Option String) (pre post : String) : String :=
  if jsTruthy o then pre ++ o.getD "" ++ post else ""

/-- The `userProvidedProfile` template of `handleGenerate` in `index.tsx`
(lines 486-493): height and weight lines, then one line per truthy
optional field — a falsy field leaves an empty line behind, and only the
ends of the whole block are trimmed. -/
def userProvidedProfile (p : Profile) : String :=
  jsTrim ("\n- Height: " ++ p.height ++ " feet\n- Weight: " ++ p.weight ++ " kilograms\n"
    ++ (match p.bodyType with
        | some b => "- Body Type: " ++ b.str
        | none => "") ++ "\n"
    ++ optLine p.chest "- Chest: " " inches" ++ "\n"
    ++ optLine p.waist "- Waist: " " inches" ++ "\n"
    ++ optLine p.hips "- Hips: " " inches" ++ "\n        ")

/-- The instruction text of the request `handleGenerate` in `index.tsx`
assembles (lines 495-524), with the profile name, the user-provided
profile block and the selected pose interpolated. -/
def idxPromptText (p : Profile) (pose : Pose) : String :=
  "\n**Primary Goal:** Create a hyper-realistic virtual try-on image by acting as a master digital artist and clothing simulation expert. Follow this strict, multi-step process with absolute precision.\n\n**Step 1 (Highest Priority): Deep Biometric Analysis & 3D Body Profile Creation.**\nYour first and most critical task is to perform a deep analysis of the three provided reference photos of "
  ++ p.name
  ++ " (front, side, and back views). Cross-reference them with the user-provided body profile below to construct a complete 3D understanding of their physique.\n- **User-Provided Body Profile (Primary Truth):**\n"
  ++ userProvidedProfile p
  ++ "\n- **Photo Analysis:** Analyze their unique body structure from the three distinct angles: shoulder-to-hip ratio, torso length, limb thickness (arms and legs), posture, body curvature, and overall body fat distribution. The three views are essential to create an accurate 3D model.\n\n**Step 2: Accurate Body Reconstruction.**\nUsing the detailed biometric profile from Step 1, reconstruct a photorealistic, full-body model of "
  ++ p.name
  ++ ".\n- The model's physique **must** be a direct and accurate representation of the user-provided profile and the 3-angle photo scan.\n- Do not use a generic or idealized body shape. The generated body's proportions and build must perfectly match the analysis from Step 1.\n\n**Step 3: Seamless Facial Integration.**\nOnce the accurate body has been reconstructed, integrate the face of "
  ++ p.name
  ++ " from the reference photos.\n- **Identity Preservation:** Recreate the face with 100% fidelity. Do not alter facial structure or features.\n- **Realistic Blending:** Analyze and replicate the lighting, shadows, and skin texture from the reference photos. The face must blend perfectly with the neck, and the lighting on the face must match the lighting of the overall scene.\n\n**Step 4: Realistic Clothing Simulation.**\nFinally, simulate how the provided clothing would realistically fit on the body you reconstructed in Step 2.\n- Analyze the clothing's material, cut, and texture from its photo.\n- Realistically render how it drapes, folds, stretches, and creases on the unique body shape.\n- **Crucially, do not create an idealized or \"perfect\" fit.** If the item would be tight, loose, or unflattering in certain areas on this specific body, you must render it that way.\n\n**Final Output:**\nCombine the results into a single, cohesive, photorealistic image. The person should be in the requested **"
  ++ pose.str
  ++ "** pose against a clean, minimalist, light gray studio background. The final image should be indistinguishable from a real photograph.\n"

/-- The ordered request parts `handleGenerate` in `index.tsx` assembles
(lines 479-526): `[clothingPart, ...personParts, textPart]` with
`personParts = [front, side, back]`. -/
def idxBuildParts (f sd bk clothing : ImageFile) (p : Profile) (pose : Pose) :
    List GenPart :=
  [mkInlinePart clothing, mkInlinePart f, mkInlinePart sd, mkInlinePart bk,
   mkTextPart (idxPromptText p pose)]

/-- The response scan of `index.tsx` (line 537):
`response.candidates?.[0]?.content?.parts?.find(part => part.inlineData)`,
followed by `imagePart?.inlineData` — the inline data of the first part of
the first candidate that carries any inline data. -/
def idxFindImagePart (resp : GenResponse) : Option InlineData :=
  (resp.candidates.head?.bind
    (fun c => c.parts.find? (fun pt => pt.inlineData.isSome))).bind
    (fun pt => pt.inlineData)

/-- The validation message of `index.tsx` for a missing clothing image or
missing profile. -/
def idxValidationMsg1 : String :=
  "Please upload a clothing item and ensure your profile is complete."

/-- The validation message of `index.tsx` for an incomplete body scan. -/
def idxValidationMsg2 : String :=
  "Please complete the 3-angle body scan in your profile for best results."

/-- The default explanation of `index.tsx` when the response carries no
image and no text. -/
def idxNoImageDefault : String :=
  "No image was generated. The model may have refused the request due to safety policies. Please try a different set of images."

/-- `handleGenerate` of `index.tsx` (lines 461-551), as a transition on the
app state: the service's eventual reply is the explicit `svc` argument,
and the second component collects the requests issued to the external
service, in order (empty when validation fails before any network
interaction). -/
def handleGenerate (svc : ServiceOutcome) (s : AppState) :
    AppState × List (List GenPart) :=
  match s.clothingImage, s.profile with
  | some clothing, some p =>
      match p.bodyScans.front, p.bodyScans.side, p.bodyScans.back with
      | some f, some sd, some bk =>
          let s1 := { s with page := Page.loading, error := none, resultImage := none }
          let parts := idxBuildParts f sd bk clothing p s.selectedPose
          match svc with
          | .ok resp =>
              match idxFindImagePart resp with
              | some d =>
                  ({ s1 with
                      resultImage := some ("data:" ++ d.mimeType ++ ";base64," ++ d.data)
                      page := Page.result }, [parts])
              | none =>
                  ({ s1 with
                      error := some ("Failed to generate image. Response: "
                        ++ jsOr resp.text idxNoImageDefault)
                      page := Page.creator }, [parts])
          | .err m =>
              ({ s1 with
                  error := some (jsOr m "An unexpected error occurred.")
                  page := Page.creator }, [parts])
      | _, _, _ =>
          ({ s with error := some idxValidationMsg2, page := Page.profile }, [])
  | _, _ =>
      ({ s with error := some idxValidationMsg1 }, [])

/-- The `Profile` record of the first unnamed variant (`part_000`), which
additionally carries an optional face image. -/
structure P0Profile where
  name : String
  faceImage : Option ImageFile
  bodyScans : BodyScan
  height : String
  weight : String
  bodyType : Option BodyType
  chest : Option String
  waist : Option String
  hips : Option String
  savedOutfits : List SavedOutfit
deriving DecidableEq, Repr

/-- The state of the `App` component of `part_000`. -/
structure P0AppState where
  page : Page
  profile : Option P0Profile
  clothingImage : Option ImageFile
  selectedPose : Pose
  resultImage : Option String
  error : Option String
  isSavingOutfit : Bool
  newOutfitName : String
  isOutfitSaved : Bool
  store : Option P0Profile
deriving DecidableEq, Repr

/-- The instruction text of the request `handleGenerate` in `part_000`
assembles (lines 609-637), with the body type (or `not specified`), the
face-image-dependent sentence and the selected pose interpolated. -/
def p0PromptText (p : P0Profile) (pose : Pose) : String :=
  "\nYou are an expert AI fashion stylist and virtual try-on specialist. Your task is to generate a photorealistic image of a person wearing a specific piece of clothing based on reference photos.\n\n**1. Analyze the User's Features (From Reference Images):**\n- **Body Structure Reference:** You are provided with three body scan images (front, side, back). These images are **for reference only**.\n- From these scans, meticulously analyze and understand the user's:\n    - **Body Shape:** Is it "
  ++ (match p.bodyType with
      | some b => b.str
      | none => "not specified")
  ++ "?\n    - **Proportions:** Limb length, torso-to-leg ratio, etc.\n    - **Posture:** How they naturally stand.\n    - **Build:** How fat or slim they are.\n- **Facial Features Reference:** "
  ++ (match p.faceImage with
      | some _ => "You are also provided with a selfie. Use this to understand the user's facial features, skin tone, and hairstyle."
      | none => "No selfie provided; generate a face that matches the general features of the person in the body scans.")
  ++ "\n\n**2. Analyze the Garment:**\n- From the clothing image, identify the item's style, cut, color, and fabric type (e.g., denim, silk, cotton, wool).\n\n**3. Core Task: Generate a NEW Photorealistic Image**\n- **DO NOT EDIT OR MODIFY the input reference images.** Your primary task is to **generate a completely new image from scratch.**\n- Create a photorealistic \"digital twin\" of the user based on your analysis from step 1. This new person must have the same body structure, posture, and facial features as the user in the reference photos.\n- Place this newly generated person in a **'"
  ++ pose.str
  ++ "'** pose.\n- Realistically simulate and drape the analyzed garment onto this digital twin. Pay close attention to how the fabric would hang, fold, and stretch on their specific body shape.\n- The final output must be a single, full-body, high-resolution image against a clean, neutral studio background. The image must not contain any text, logos, or watermarks.\n- **Crucial Constraint:** The final generated image's pose and background **must be different** from the input body scan photos, proving it is a new creation.\n"

/-- The optional leading face-image part of the `part_000` request:
`...(profile.faceImage ? [facePart] : [])`. -/
def p0FaceParts (o : Option ImageFile) : List GenPart :=
  match o with
  | some fc => [mkInlinePart fc]
  | none => []

/-- The ordered request parts `handleGenerate` in `part_000` assembles
(lines 640-648): optional face part, then the front, side and back scans,
then the clothing part, then the text part. -/
def p0BuildParts (face : Option ImageFile) (f sd bk clothing : ImageFile)
    (p : P0Profile) (pose : Pose) : List GenPart :=
  p0FaceParts face
    ++ [mkInlinePart f, mkInlinePart sd, mkInlinePart bk, mkInlinePart clothing,
        mkTextPart (p0PromptText p pose)]

/-- The response scan of `part_000` (lines 657-663): the first part of the
first candidate whose inline data has an `image/*` media type, turned into
an `ImageFile`. -/
def p0FindImagePart (parts : List GenPart) : Option ImageFile :=
  match parts.find? (fun pt =>
      match pt.inlineData with
      | some d => d.mimeType.startsWith "image/"
      | none => false) with
  | some pt =>
      pt.inlineData.map (fun d => { b64 := d.data, mimeType := d.mimeType })
  | none => none

/-- The single validation message of `part_000`. -/
def p0ValidationMsg : String :=
  "Please complete your profile, including the 3-angle body scan, and upload a clothing image first."

/-- The message of the error `part_000` throws when the response holds no
image part. -/
def p0NoImageMsg : String :=
  "The AI did not return an image. It might have responded with text instead. Please check your prompt or try a different image."

/-- The lead-in the catch handler of `part_000` puts before the caught
error's message. -/
def p0CatchLead : String :=
  "Sorry, we couldn't generate the image. "

/-- The message of the TypeError the `part_000` response loop raises when
`response.candidates[0]` is absent (`.content` of `undefined`). -/
def p0NoCandidatesMsg : String :=
  "Cannot read properties of undefined (reading 'content')"

/-- `handleGenerate` of `part_000` (lines 594-675): one combined validation
guard (no page change on violation), then one request; the response loop
takes the first `image/*` inline part, a missing image throws (caught
below, with the fixed message), and the catch handler routes every failure
back to the creator page with the lead-in plus the error's message. -/
def p0_handleGenerate (svc : ServiceOutcome) (s : P0AppState) :
    P0AppState × List (List GenPart) :=
  match s.profile, s.clothingImage with
  | some p, some clothing =>
      match p.bodyScans.front, p.bodyScans.side, p.bodyScans.back with
      | some f, some sd, some bk =>
          let s1 := { s with page := Page.loading, resultImage := none, error := none }
          let parts := p0BuildParts p.faceImage f sd bk clothing p s.selectedPose
          match svc with
          | .ok resp =>
              match resp.candidates.head? with
              | none =>
                  ({ s1 with
                      error := some (p0CatchLead ++ jsOr (some p0NoCandidatesMsg)
                        "Please try again.")
                      page := Page.creator }, [parts])
              | some c =>
                  match p0FindImagePart c.parts with
                  | some img =>
                      ({ s1 with
                          resultImage := some ("data:" ++ img.mimeType ++ ";base64,"
                            ++ img.b64)
                          page := Page.result
                          isOutfitSaved := false
                          newOutfitName := "" }, [parts])
                  | none =>
                      ({ s1 with
                          error := some (p0CatchLead ++ jsOr (some p0NoImageMsg)
                            "Please try again.")
                          page := Page.creator }, [parts])
          | .err m =>
              ({ s1 with
                  error := some (p0CatchLead ++ jsOr m "Please try again.")
                  page := Page.creator }, [parts])
      | _, _, _ => ({ s with error := some p0ValidationMsg }, [])
  | _, _ => ({ s with error := some p0ValidationMsg }, [])

/-- A complete concrete body scan for the concrete instances below. -/
def sampleScan : BodyScan :=
  { front := some { b64 := "F", mimeType := "image/jpeg" },
    side := some { b64 := "S", mimeType := "image/jpeg" },
    back := some { b64 := "B", mimeType := "image/jpeg" } }

/-- A concrete clothing image. -/
def sampleClothing : ImageFile := { b64 := "C", mimeType := "image/png" }

/-- A concrete profile whose body scan is entirely missing. -/
def sampleProfileNoScan : Profile :=
  { name := "Alex", bodyScans := { front := none, side := none, back := none },
    height := "5.8", weight := "70", bodyType := none, chest := none,
    waist := none, hips := none, savedOutfits := [] }

/-- A concrete profile with a complete body scan. -/
def sampleProfileComplete : Profile :=
  { name := "Alex", bodyScans := sampleScan,
    height := "5.8", weight := "70", bodyType := none, chest := none,
    waist := none, hips := none, savedOutfits := [] }

/-- The creator page with a clothing image selected and a profile whose
body scan is incomplete. -/
def creatorStateNoScan : AppState :=
  { page := Page.creator, profile := some sampleProfileNoScan,
    clothingImage := some sampleClothing, selectedPose := Pose.standingStraight,
    resultImage := none, error := none, isSavingOutfit := false,
    newOutfitName := "", isOutfitSaved := false, store := some sampleProfileNoScan }

/-- The creator page with a clothing image selected and a complete profile. -/
def creatorStateReady : AppState :=
  { page := Page.creator, profile := some sampleProfileComplete,
    clothingImage := some sampleClothing, selectedPose := Pose.standingStraight,
    resultImage := none, error := none, isSavingOutfit := false,
    newOutfitName := "", isOutfitSaved := false, store := some sampleProfileComplete }

/-- C1 counterexample: on the creator page with a clothing image selected
and a profile whose body scan is incomplete, `handleGenerate` of
`index.tsx` rejects the action with zero service calls — but it navigates
to the profile page instead of staying on the creator page, refuting the
claimed "no page change". -/
theorem generate_rejection_page_change_counterexample :
    (handleGenerate (ServiceOutcome.err none) creatorStateNoScan).1.page = Page.profile ∧
    (handleGenerate (ServiceOutcome.err none) creatorStateNoScan).1.error
      = some idxValidationMsg2 ∧
    (handleGenerate (ServiceOutcome.err none) creatorStateNoScan).2 = [] ∧
    creatorStateNoScan.page = Page.creator ∧
    Page.profile ≠ Page.creator := by
  decide

/-- C1 (amended): every validation violation fails fast with a validation
message and zero service calls, but the page behaviour differs: in
`index.tsx` a missing clothing image or missing profile is rejected in
place (no page change), while a present profile with an incomplete body
scan is rejected with a navigation to the profile page; in `part_000`
every violation is rejected in place with one combined message.  The
fields name, height and weight are not re-checked at generate time. -/
theorem generate_validation_spec :
    (∀ (svc : ServiceOutcome) (s : AppState),
        (s.clothingImage = none ∨ s.profile = none →
          handleGenerate svc s = ({ s with error := some idxValidationMsg1 }, [])) ∧
        (∀ p, s.profile = some p → s.clothingImage ≠ none →
          isScanComplete p.bodyScans = false →
          handleGenerate svc s
            = ({ s with error := some idxValidationMsg2, page := Page.profile }, []))) ∧
    (∀ (svc : ServiceOutcome) (s : P0AppState),
        (s.clothingImage = none ∨ s.profile = none →
          p0_handleGenerate svc s = ({ s with error := some p0ValidationMsg }, [])) ∧
        (∀ p, s.profile = some p → s.clothingImage ≠ none →
          isScanComplete p.bodyScans = false →
          p0_handleGenerate svc s = ({ s with error := some p0ValidationMsg }, []))) := by
  constructor
  · intro svc s
    obtain ⟨pg, pr, ci, sp, ri, er, iso, non, ios, st⟩ := s
    constructor
    · rintro (h | h) <;> simp only at h <;> subst h
      · cases pr <;> simp [handleGenerate]
      · cases ci <;> simp [handleGenerate]
    · intro p hp hc hscan
      simp only at hp hc
      subst hp
      obtain ⟨c, hc⟩ := Option.ne_none_iff_exists'.mp hc
      subst hc
      obtain ⟨nm, ⟨bf, bsd, bbk⟩, hh, ww, bt, ch, wa, hps, so⟩ := p
      cases bf <;> cases bsd <;> cases bbk <;>
        simp_all [handleGenerate, isScanComplete]
  · intro svc s
    obtain ⟨pg, pr, ci, sp, ri, er, iso, non, ios, st⟩ := s
    constructor
    · rintro (h | h) <;> simp only at h <;> subst h
      · cases pr <;> simp [p0_handleGenerate]
      · cases ci <;> simp [p0_handleGenerate]
    · intro p hp hc hscan
      simp only at hp hc
      subst hp
      obtain ⟨c, hc⟩ := Option.ne_none_iff_exists'.mp hc
      subst hc
      obtain ⟨nm, fi, ⟨bf, bsd, bbk⟩, hh, ww, bt, ch, wa, hps, so⟩ := p
      cases bf <;> cases bsd <;> cases bbk <;>
        simp_all [p0_handleGenerate, isScanComplete]

/-- Modelled from the spec (for comparison only): the part order C2 claims
for every assembled request — the optional face image part first, then the
body-reference parts in the fixed order front, side, back, then the
clothing image part, then one textual instruction part as the final
part. -/
def specClaimedPartOrder (face : Option ImageFile) (f sd bk clothing : ImageFile)
    (instruction : String) : List GenPart :=
  (match face with
    | some fc => [mkInlinePart fc]
    | none => [])
    ++ [mkInlinePart f, mkInlinePart sd, mkInlinePart bk]
    ++ [mkInlinePart clothing]
    ++ [mkTextPart instruction]

/-- C2 counterexample: on a ready creator state, the single request
`handleGenerate` of `index.tsx` issues begins with the clothing part —
not with the body-reference parts — so the assembled part list differs
from the order the claim states (no face part, clothing before the body
references). -/
theorem request_part_order_counterexample :
    ((handleGenerate (ServiceOutcome.err none) creatorStateReady).2.head?.bind
        List.head?)
      = some (mkInlinePart sampleClothing) ∧
    (handleGenerate (ServiceOutcome.err none) creatorStateReady).2
      ≠ [specClaimedPartOrder none
          { b64 := "F", mimeType := "image/jpeg" }
          { b64 := "S", mimeType := "image/jpeg" }
          { b64 := "B", mimeType := "image/jpeg" }
          sampleClothing
          (idxPromptText sampleProfileComplete Pose.standingStraight)] := by
  decide

/-- C2 (amended): for every generation request assembled by generate the
ordered part list is fixed and ends with one textual instruction part, but
the order differs by variant: `index.tsx` sends the clothing part first,
then the body references front, side, back, then the text part (and has no
face part); `part_000` sends the optional face part, then front, side,
back, then the clothing part, then the text part. -/
theorem request_part_order_spec :
    (∀ (svc : ServiceOutcome) (s : AppState) (p : Profile)
        (f sd bk clothing : ImageFile),
        s.profile = some p → s.clothingImage = some clothing →
        p.bodyScans.front = some f → p.bodyScans.side = some sd →
        p.bodyScans.back = some bk →
        (handleGenerate svc s).2
          = [[mkInlinePart clothing, mkInlinePart f, mkInlinePart sd, mkInlinePart bk,
              mkTextPart (idxPromptText p s.selectedPose)]]) ∧
    (∀ (svc : ServiceOutcome) (s : P0AppState) (p : P0Profile)
        (f sd bk clothing : ImageFile),
        s.profile = some p → s.clothingImage = some clothing →
        p.bodyScans.front = some f → p.bodyScans.side = some sd →
        p.bodyScans.back = some bk →
        (p0_handleGenerate svc s).2
          = [p0FaceParts p.faceImage
              ++ [mkInlinePart f, mkInlinePart sd, mkInlinePart bk,
                  mkInlinePart clothing, mkTextPart (p0PromptText p s.selectedPose)]]) := by
  constructor
  · intro svc s p f sd bk clothing hp hc hf hs hb
    obtain ⟨pg, pr, ci, sp, ri, er, iso, non, ios, st⟩ := s
    simp only at hp hc
    subst hp hc
    obtain ⟨nm, ⟨bf, bsd, bbk⟩, hh, ww, bt, ch, wa, hps, so⟩ := p
    simp only at hf hs hb
    subst hf hs hb
    cases svc with
    | ok resp =>
        cases hI : idxFindImagePart resp <;>
          simp [handleGenerate, idxBuildParts, hI]
    | err m => simp [handleGenerate, idxBuildParts]
  · intro svc s p f sd bk clothing hp hc hf hs hb
    obtain ⟨pg, pr, ci, sp, ri, er, iso, non, ios, st⟩ := s
    simp only at hp hc
    subst hp hc
    obtain ⟨nm, fi, ⟨bf, bsd, bbk⟩, hh, ww, bt, ch, wa, hps, so⟩ := p
    simp only at hf hs hb
    subst hf hs hb
    cases svc with
    | ok resp =>
        cases hH : resp.candidates.head? with
        | none => simp [p0_handleGenerate, p0BuildParts, hH]
        | some c =>
            cases hI : p0FindImagePart c.parts <;>
              simp [p0_handleGenerate, p0BuildParts, hH, hI]
    | err m => simp [p0_handleGenerate, p0BuildParts]

/-- A concrete complete profile of the `part_000` variant (no face image). -/
def p0SampleProfile : P0Profile :=
  { name := "Alex", faceImage := none, bodyScans := sampleScan,
    height := "5.8", weight := "70", bodyType := none, chest := none,
    waist := none, hips := none, savedOutfits := [] }

/-- A ready creator state of the `part_000` variant. -/
def p0CreatorStateReady : P0AppState :=
  { page := Page.creator, profile := some p0SampleProfile,
    clothingImage := some sampleClothing, selectedPose := Pose.standingStraight,
    resultImage := none, error := none, isSavingOutfit := false,
    newOutfitName := "", isOutfitSaved := false, store := some p0SampleProfile }

/-- A response with no image part whose accompanying text is
`safety policy`. -/
def respSafety : GenResponse :=
  { candidates := [{ parts := [mkTextPart "safety policy"] }],
    text := some "safety policy" }

/-- The same image-less response with a different accompanying text. -/
def respOther : GenResponse :=
  { candidates := [{ parts := [mkTextPart "safety policy"] }],
    text := some "a completely different explanation" }

set_option maxRecDepth 8000 in
/-- C4 counterexample: in `part_000`, a response with no inline image part
and accompanying text `safety policy` yields a failure whose message is
the fixed default explanation — not the response's text: the same state
results for two responses whose accompanying texts differ, so the failure
cannot be carrying the response's text. -/
theorem response_text_ignored_counterexample :
    (p0_handleGenerate (ServiceOutcome.ok respSafety) p0CreatorStateReady).1
      = (p0_handleGenerate (ServiceOutcome.ok respOther) p0CreatorStateReady).1 ∧
    (p0_handleGenerate (ServiceOutcome.ok respSafety) p0CreatorStateReady).1.error
      = some (p0CatchLead ++ p0NoImageMsg) ∧
    (p0_handleGenerate (ServiceOutcome.ok respSafety) p0CreatorStateReady).1.error
      ≠ some "safety policy" ∧
    respSafety.text ≠ respOther.text := by
  decide

/-- C4 (amended): both variants scan the first candidate's ordered parts
for the first image-bearing inline part and, when it exists, succeed with
that image as the shown result.  When none exists, `index.tsx` fails back
to the creator page carrying the response's accompanying text (or its
default explanation when no text is returned), while `part_000` requires
the inline part's media type to start with `image/` and fails back to the
creator page with a fixed default explanation that ignores the response's
accompanying text. -/
theorem response_scan_spec :
    (∀ (resp : GenResponse) (s : AppState) (p : Profile)
        (f sd bk clothing : ImageFile),
        s.profile = some p → s.clothingImage = some clothing →
        p.bodyScans.front = some f → p.bodyScans.side = some sd →
        p.bodyScans.back = some bk →
        (∀ d, idxFindImagePart resp = some d →
            (handleGenerate (ServiceOutcome.ok resp) s).1.resultImage
              = some ("data:" ++ d.mimeType ++ ";base64," ++ d.data) ∧
            (handleGenerate (ServiceOutcome.ok resp) s).1.page = Page.result) ∧
        (idxFindImagePart resp = none →
            (handleGenerate (ServiceOutcome.ok resp) s).1.error
              = some ("Failed to generate image. Response: "
                  ++ jsOr resp.text idxNoImageDefault) ∧
            (handleGenerate (ServiceOutcome.ok resp) s).1.resultImage = none ∧
            (handleGenerate (ServiceOutcome.ok resp) s).1.page = Page.creator)) ∧
    (∀ (resp : GenResponse) (c : Candidate) (s : P0AppState) (p : P0Profile)
        (f sd bk clothing : ImageFile),
        s.profile = some p → s.clothingImage = some clothing →
        p.bodyScans.front = some f → p.bodyScans.side = some sd →
        p.bodyScans.back = some bk →
        resp.candidates.head? = some c →
        (∀ img, p0FindImagePart c.parts = some img →
            (p0_handleGenerate (ServiceOutcome.ok resp) s).1.resultImage
              = some ("data:" ++ img.mimeType ++ ";base64," ++ img.b64) ∧
            (p0_handleGenerate (ServiceOutcome.ok resp) s).1.page = Page.result) ∧
        (p0FindImagePart c.parts = none →
            (p0_handleGenerate (ServiceOutcome.ok resp) s).1.error
              = some (p0CatchLead ++ p0NoImageMsg) ∧
            (p0_handleGenerate (ServiceOutcome.ok resp) s).1.page = Page.creator)) := by
  constructor
  · intro resp s p f sd bk clothing hp hc hf hs hb
    obtain ⟨pg, pr, ci, sp, ri, er, iso, non, ios, st⟩ := s
    simp only at hp hc
    subst hp hc
    obtain ⟨nm, ⟨bf, bsd, bbk⟩, hh, ww, bt, ch, wa, hps, so⟩ := p
    simp only at hf hs hb
    subst hf hs hb
    constructor
    · intro d hd
      simp [handleGenerate, hd]
    · intro hnone
      simp [handleGenerate, hnone]
  · intro resp c s p f sd bk clothing hp hc hf hs hb hhead
    obtain ⟨pg, pr, ci, sp, ri, er, iso, non, ios, st⟩ := s
    simp only at hp hc
    subst hp hc
    obtain ⟨nm, fi, ⟨bf, bsd, bbk⟩, hh, ww, bt, ch, wa, hps, so⟩ := p
    simp only at hf hs hb
    subst hf hs hb
    have hmsg : jsOr (some p0NoImageMsg) "Please try again." = p0NoImageMsg := by decide
    constructor
    · intro img himg
      simp [p0_handleGenerate, hhead, himg]
    · intro hnone
      simp [p0_handleGenerate, hhead, hnone, hmsg]

/-- C10: for every invocation of generate in either variant — validation
failure, service success or service failure — the in-memory `Profile`
value and the persisted profile record are unchanged, and at most one
outbound request is performed (exactly the single request once validation
passes, zero otherwise); in `index.tsx` the creator inputs and the
save-outfit state are also untouched, so the only state the pipeline
changes is the transient page, result and error. -/
theorem generate_frame_spec :
    (∀ (svc : ServiceOutcome) (s : AppState),
        (handleGenerate svc s).1.profile = s.profile ∧
        (handleGenerate svc s).1.store = s.store ∧
        (handleGenerate svc s).1.clothingImage = s.clothingImage ∧
        (handleGenerate svc s).1.selectedPose = s.selectedPose ∧
        (handleGenerate svc s).1.isSavingOutfit = s.isSavingOutfit ∧
        (handleGenerate svc s).1.newOutfitName = s.newOutfitName ∧
        (handleGenerate svc s).1.isOutfitSaved = s.isOutfitSaved ∧
        (handleGenerate svc s).2.length ≤ 1) ∧
    (∀ (svc : ServiceOutcome) (s : P0AppState),
        (p0_handleGenerate svc s).1.profile = s.profile ∧
        (p0_handleGenerate svc s).1.store = s.store ∧
        (p0_handleGenerate svc s).2.length ≤ 1) := by
  constructor
  · intro svc s
    obtain ⟨pg, pr, ci, sp, ri, er, iso, non, ios, st⟩ := s
    cases ci with
    | none => simp [handleGenerate]
    | some clothing =>
      cases pr with
      | none => simp [handleGenerate]
      | some p =>
        obtain ⟨nm, ⟨bf, bsd, bbk⟩, hh, ww, bt, ch, wa, hps, so⟩ := p
        cases svc with
        | ok resp =>
            cases hI : idxFindImagePart resp <;>
              cases bf <;> cases bsd <;> cases bbk <;>
                simp [handleGenerate, hI]
        | err m =>
            cases bf <;> cases bsd <;> cases bbk <;> simp [handleGenerate]
  · intro svc s
    obtain ⟨pg, pr, ci, sp, ri, er, iso, non, ios, st⟩ := s
    cases pr with
    | none => simp [p0_handleGenerate]
    | some p =>
      cases ci with
      | none => simp [p0_handleGenerate]
      | some clothing =>
        obtain ⟨nm, fi, ⟨bf, bsd, bbk⟩, hh, ww, bt, ch, wa, hps, so⟩ := p
        cases svc with
        | ok resp =>
            cases hH : resp.candidates.head? with
            | none =>
                cases bf <;> cases bsd <;> cases bbk <;>
                  simp [p0_handleGenerate, hH]
            | some c =>
                cases hI : p0FindImagePart c.parts <;>
                  cases bf <;> cases bsd <;> cases bbk <;>
                    simp [p0_handleGenerate, hH, hI]
        | err m =>
            cases bf <;> cases bsd <;> cases bbk <;> simp [p0_handleGenerate]
